import Mathlib

/-!
Shallow embedding of the rehab-app backend (src/backend/app.py) covering the
score engine, the aggregation queries, the report composer and the document
renderer, together with theorems settling the specification claims.

Conventions of the embedding:
* Python JSON-ish values are modelled by `PyValue`; a Python dict by an
  association list (`PyDict`) with first-match lookup.
* `datetime` timestamps are abstracted to the proleptic-Gregorian ordinal of
  their UTC calendar date (`tsDay : Nat`), which is all the aggregation code
  inspects (`.date()` comparisons and `.weekday()`); Python's
  `date.weekday()` equals `(ordinal - 1) % 7` since ordinal 1 is a Monday.
* Numeric expressions (`sum(...) / ... * 100` followed by `round`) are
  modelled exactly over `ℚ`; `round` is Python's round-half-to-even.
* Fallible Python expressions (`int(v)` without a surrounding try) return
  `Except String`; ones inside `try: ... except: continue` return `Option`.
-/

/-- JSON-like Python values as they occur in the stored collections. -/
inductive PyValue
  | vNone
  | vBool (b : Bool)
  | vInt (n : Int)
  | vStr (s : String)
  | vOther
deriving DecidableEq, Repr

/-- A Python dict keyed by strings, as an association list (keys unique in
practice; lookup takes the first match, matching dict semantics). -/
abbrev PyDict := List (String × PyValue)

/-- Python `d.get(k)`: `none` models both a missing key and Python `None`
being absent; a stored `None` is `some .vNone`. -/
def pyGet (d : PyDict) (k : String) : Option PyValue :=
  match d with
  | [] => none
  | (k2, v) :: rest => if k2 = k then some v else pyGet rest k

/-- Characters Python `str.strip()` removes. -/
def isPySpace (c : Char) : Bool :=
  c == ' ' || c == '\t' || c == '\n' || c == '\r' || c == '\x0b' || c == '\x0c'

/-- Python `str.strip()` on a character list. -/
def pyStripChars (l : List Char) : List Char :=
  ((l.dropWhile isPySpace).reverse.dropWhile isPySpace).reverse

/-- Decimal digits to a natural number, most significant first. -/
def digitsToNat (l : List Char) : Nat :=
  l.foldl (fun acc c => acc * 10 + (c.toNat - 48)) 0

/-- Python `int(s)` for a string: optional surrounding whitespace, optional
sign, then at least one decimal digit (underscore separators are not
modelled; no claim depends on them). -/
def pyParseInt (s : String) : Option Int :=
  match pyStripChars s.data with
  | [] => none
  | '-' :: rest =>
      if rest ≠ [] ∧ rest.all Char.isDigit then some (-(digitsToNat rest : Int)) else none
  | '+' :: rest =>
      if rest ≠ [] ∧ rest.all Char.isDigit then some ((digitsToNat rest : Int)) else none
  | l =>
      if l.all Char.isDigit then some ((digitsToNat l : Int)) else none

/-- Python `int(v)` on a JSON value, raising on failure (error messages are
abbreviated forms of CPython's). -/
def pyToIntExn : PyValue → Except String Int
  | .vInt n => .ok n
  | .vBool b => .ok (if b then 1 else 0)
  | .vStr s =>
      match pyParseInt s with
      | some n => .ok n
      | none => .error ("invalid literal for int() with base 10: " ++ s)
  | .vNone => .error "int() argument is None"
  | .vOther => .error "int() argument is not convertible"

/-- Python `int(v)` where the caller wraps it in `try: ... except: continue`. -/
def pyToInt? (v : PyValue) : Option Int := (pyToIntExn v).toOption

/-- Python `round` on an exact rational: round-half-to-even. -/
def pyRound (q : ℚ) : Int :=
  if q - ⌊q⌋ < 1/2 then ⌊q⌋
  else if 1/2 < q - ⌊q⌋ then ⌊q⌋ + 1
  else if ⌊q⌋ % 2 = 0 then ⌊q⌋ else ⌊q⌋ + 1

/-- Python `str.lower()` (ASCII case mapping; the category vocabulary this is
compared against is pure ASCII). -/
def pyLower (s : String) : String := String.mk (s.data.map Char.toLower)

/- ## Data model (§3 of the spec) -/

/-- A stored patient record. -/
structure Patient where
  id : String
  name : String
  age : Option Int
deriving DecidableEq, Repr

/-- A stored assessment; `tsDay` is the ordinal of `timestamp.date()`. -/
structure Assessment where
  id : String
  patientId : String
  tsDay : Nat
  data : PyDict
deriving DecidableEq, Repr

/-- A stored workout; `tsDay` is the ordinal of the timestamp's date. -/
structure Workout where
  id : String
  patientId : String
  activityName : String
  category : String
  duration : Int
  frequency : String
  instructions : Option String
  tsDay : Nat
deriving DecidableEq, Repr

/- ## Score engine (`compute_assessment_score`, app.py lines 146-162) -/

/-- The six known rating keys, in source order. -/
def ratingKeys : List String :=
  ["fineMotor_grip", "grossMotor_balance", "cognitive_approach",
   "emotional_quality", "communication_clarity", "communication_grammar"]

/-- One iteration of the collection loop: `v = data.get(k)`; skip when the
key is missing or the value is `None`; otherwise `int(v)` inside
`try: ... except: continue`. -/
def tryIntOfEntry : Option PyValue → Option Int
  | none => none
  | some .vNone => none
  | some v => pyToInt? v

/-- The `values` list accumulated by the loop over `keys`. -/
def collectRatings (d : PyDict) (keys : List String) : List Int :=
  keys.filterMap (fun k => tryIntOfEntry (pyGet d k))

/-- `compute_assessment_score`: 0 when no convertible rating value is
present, else `round(sum(values) / (len(values)*5) * 100)`. -/
def compute_assessment_score (a : Assessment) : Int :=
  let values := collectRatings a.data ratingKeys
  if values = [] then 0
  else pyRound ((values.sum : ℚ) / (values.length * 5) * 100)

/- ## Aggregator: dashboard stats (`compute_dashboard_stats`, lines 176-187) -/

/-- The dashboard stats record. -/
structure Stats where
  activePatients : Nat
  todaysAssessments : Nat
  averageProgress : Int
  homeWorkouts : Nat
deriving DecidableEq, Repr

/-- `compute_dashboard_stats`; `today` is the current UTC date's ordinal
(the source reads `datetime.now(timezone.utc).date()`). -/
def compute_dashboard_stats (today : Nat) (assessments : List Assessment)
    (workouts : List Workout) : Stats :=
  let patients :=
    ((assessments.map (fun a => a.patientId)) ++ (workouts.map (fun w => w.patientId))).dedup
  let todays := assessments.filter (fun a => a.tsDay = today)
  let avgList := (assessments.map compute_assessment_score).filter (fun s => decide (0 < s))
  let avg := if avgList = [] then 0 else pyRound ((avgList.sum : ℚ) / avgList.length)
  ⟨patients.length, todays.length, avg, workouts.length⟩

/- ## Aggregator: weekly activity (`compute_weekly_activity`, lines 190-197) -/

/-- Python `date.weekday()` from the date's ordinal (ordinal 1 is a Monday,
weekday 0). -/
def pyWeekday (d : Nat) : Nat := (d - 1) % 7

/-- One loop iteration of `compute_weekly_activity`: increment the bucket of
the workout's weekday. -/
def weeklyStep (cnt : Nat → Nat) (w : Workout) : Nat → Nat :=
  Function.update cnt (pyWeekday w.tsDay) (cnt (pyWeekday w.tsDay) + 1)

/-- `compute_weekly_activity`: the `data` array (Mon..Sun counts). -/
def compute_weekly_activity (ws : List Workout) : List Nat :=
  (List.range 7).map (ws.foldl weeklyStep (fun _ => 0))

/- ## Aggregator: activity distribution (`compute_activity_distribution`,
lines 200-209) -/

/-- The fixed 8-category vocabulary, in the order the source reads the
counts back out. -/
def activity_categories : List String :=
  ["fine-motor", "gross-motor", "cognitive", "sensory", "communication",
   "social", "adl", "attention"]

/-- One loop iteration: lowercase the category (`(w.category or '').lower()`;
`category` is a required string, so the `or ''` is the identity here) and
increment its bucket when it is in the vocabulary, else drop the workout. -/
def distStep (cnt : String → Nat) (w : Workout) : String → Nat :=
  let c := pyLower w.category
  if c ∈ activity_categories then Function.update cnt c (cnt c + 1) else cnt

/-- `compute_activity_distribution`: the `data` array in vocabulary order. -/
def compute_activity_distribution (ws : List Workout) : List Nat :=
  activity_categories.map (ws.foldl distStep (fun _ => 0))

/- ## Aggregator: progress-over-time series (`chart_dashboard_progress`,
lines 310-342) -/

/-- The `if patientId:` filter shared by the endpoints (an empty-string id is
falsy in Python and disables the filter). -/
def filterByPatient (pid : Option String) (l : List Assessment) : List Assessment :=
  match pid with
  | none => l
  | some p => if p = "" then l else l.filter (fun a => a.patientId = p)

/-- The bucket count `n = max(1, min(int(days or 7), 90))`; `days or 7`
treats both a missing value and `0` as 7. -/
def progressN (days : Option Int) : Nat :=
  let d : Int := match days with
    | none => 7
    | some d => if d = 0 then 7 else d
  (max 1 (min d 90)).toNat

/-- The list of bucket dates, oldest first: today at the head of the raw
list, day offsets appended, then reversed, as in the source. -/
def progressDates (today : Nat) (n : Nat) : List Nat :=
  ((List.range n).map (fun i => today - i)).reverse

/-- `chart_dashboard_progress`: the `data` array.  Each bucket collects the
scores of the assessments whose date equals the bucket's date (in stored
order) and reports their rounded mean, 0 when the bucket is empty. -/
def chart_dashboard_progress (today : Nat) (days : Option Int)
    (patientId : Option String) (assessments : List Assessment) : List Int :=
  let A := filterByPatient patientId assessments
  (progressDates today (progressN days)).map (fun d =>
    let vals := (A.filter (fun a => a.tsDay = d)).map compute_assessment_score
    if vals = [] then 0 else pyRound ((vals.sum : ℚ) / vals.length))

/- ## Aggregator: skills radar (`chart_dashboard_skills`, lines 345-390) -/

/-- The fixed category-to-field mapping, in source (dict insertion) order. -/
def skills_categories : List (String × List String) :=
  [("Fine Motor", ["fineMotor_grip", "fineMotor_beads"]),
   ("Gross Motor", ["grossMotor_balance", "grossMotor_time", "grossMotor_falls"]),
   ("Cognitive", ["cognitive_approach", "cognitive_memory"]),
   ("Sensory", ["sensory_behavior"]),
   ("Communication", ["communication_clarity", "communication_grammar"]),
   ("Social", ["social_interaction"]),
   ("ADL", ["adl_independence"]),
   ("Attention", ["attention_span"])]

/-- `chart_dashboard_skills`: the `data` array; for each category, pool the
convertible field values over all assessments (assessment-major, then key
order, with `try: ... except: continue` around the conversion) and report
`round(sum / (len*5) * 100)`, or 0 when nothing was collected. -/
def chart_dashboard_skills (patientId : Option String)
    (assessments : List Assessment) : List Int :=
  let A := filterByPatient patientId assessments
  skills_categories.map (fun cat =>
    let vals := A.flatMap (fun a => cat.2.filterMap (fun k => tryIntOfEntry (pyGet a.data k)))
    if vals = [] then 0 else pyRound ((vals.sum : ℚ) / (vals.length * 5) * 100))

/- ## Reports: skill performance (`reports_skill_performance`, lines 394-432)

Unlike the two queries above, the comprehension
`[int(a.data.get(k)) for k in keys if a.data.get(k) is not None]` has no
try/except, so a non-convertible stored value raises and the whole request
fails; the embedding therefore lives in `Except String`. -/

/-- The category-to-field mapping of the skill-performance report, in source
order. -/
def skill_performance_categories : List (String × List String) :=
  [("Fine Motor Skills", ["fineMotor_grip"]),
   ("Gross Motor Skills", ["grossMotor_balance"]),
   ("Cognitive Abilities", ["cognitive_approach"]),
   ("Communication Skills", ["communication_clarity", "communication_grammar"]),
   ("Social Skills", []),
   ("ADL Skills", ["adl_independence"]),
   ("Sensory Processing", ["sensory_behavior"]),
   ("Attention & Concentration", [])]

/-- The `vals` comprehension: keys in order, skipping missing/`None`
entries, with `int(...)` allowed to raise. -/
def collectValsExn (d : PyDict) : List String → Except String (List Int)
  | [] => .ok []
  | k :: ks =>
    match pyGet d k with
    | none => collectValsExn d ks
    | some .vNone => collectValsExn d ks
    | some v => do
        let i ← pyToIntExn v
        let rest ← collectValsExn d ks
        pure (i :: rest)

/-- The per-assessment `scores` list of one category (order preserved;
assessments contributing no value are skipped). -/
def categoryScoresExn (keys : List String) : List Assessment → Except String (List Int)
  | [] => .ok []
  | a :: rest => do
      let vals ← collectValsExn a.data keys
      let tl ← categoryScoresExn keys rest
      if vals = [] then pure tl
      else pure (pyRound ((vals.sum : ℚ) / (vals.length * 5) * 100) :: tl)

/-- One row of the skill-performance report. -/
structure SkillRow where
  skill : String
  current : Int
  previous : Int
  goal : Int
  status : String
deriving DecidableEq, Repr

/-- Build one report row from a category's scores: `previous` is naively the
mean of all but the last score (or `max(0, current-5)` when fewer than two
scores exist), `status` and `goal` follow the source's conditionals
(`if current` is Python truthiness, i.e. `current ≠ 0`). -/
def skillRowOfScores (label : String) (scores : List Int) : SkillRow :=
  let prevScores := if 1 < scores.length then scores.dropLast else []
  let current := if scores = [] then 0 else pyRound ((scores.sum : ℚ) / scores.length)
  let previous :=
    if prevScores = [] then max 0 (current - 5)
    else pyRound ((prevScores.sum : ℚ) / prevScores.length)
  let status :=
    if previous ≤ current then "On Track"
    else if 0 < current then "Improving" else "Needs Attention"
  let goal := if current = 0 then 80 else min 100 (max 80 (current + 5))
  ⟨label, current, previous, goal, status⟩

/-- `reports_skill_performance`: one row per category; the first conversion
error anywhere aborts the endpoint. -/
def reports_skill_performance (patientId : Option String)
    (assessments : List Assessment) : Except String (List SkillRow) :=
  let A := filterByPatient patientId assessments
  skill_performance_categories.mapM (fun cat => do
    let scores ← categoryScoresExn cat.2 A
    pure (skillRowOfScores cat.1 scores))

/- ## Report composer (`generate_report`, lines 569-710)

The endpoint reads the stores, filters by patient, computes the stats and
then selects the report `content`.  The external Gemini call is the one
side-effecting collaborator; its outcome is abstracted by `GenResult`
(`.ok` carries `getattr(result, 'text', None)`, `.fail` carries `str(e)` of
the raised exception).  `configured` is
`not (genai is None or not GEMINI_API_KEY or not GEMINI_MODEL_NAME)`. -/

/-- Outcome of `model.generate_content(...)`. -/
inductive GenResult
  | ok (text : Option String)
  | fail (reason : String)
deriving DecidableEq, Repr

/-- The fixed insufficient-data narrative (lines 594-605), verbatim
including the source's missing newlines after the two run-together section
labels, with `pname`/`age_str` exactly as computed there. -/
def insufficient_template (patientInfo : Option Patient) : String :=
  let pname := match patientInfo with
    | some p => p.name
    | none => "the patient"
  let ageStr := match patientInfo with
    | some p =>
        match p.age with
        | some n => " (Age " ++ toString n ++ ")"
        | none => ""
    | none => ""
  "Insufficient data to generate a detailed report for " ++ pname ++ ageStr ++
    " at this time.\n\n" ++
    "What this means:" ++
    "- No scored assessment fields were provided yet, and no home workouts are recorded.\n\n" ++
    "Recommended next steps:" ++
    "- Complete at least one assessment with key skill ratings (e.g., Fine Motor, Gross Motor, Communication).\n" ++
    "- Optionally log a few home workout activities to enrich the analysis.\n" ++
    "Once new data is available, generate the report again to see personalized insights and recommendations."

/-- The no-generator placeholder summary (lines 609-614). -/
def not_configured_template (stats : Stats) : String :=
  "AI is not configured. Summary placeholder:\n" ++
    "Active Patients: " ++ toString stats.activePatients ++ "\n" ++
    "Average Progress: " ++ toString stats.averageProgress ++ "%\n" ++
    "Total Workouts: " ++ toString stats.homeWorkouts ++ "\n"

/-- The generation-failure fallback summary (lines 685-691). -/
def ai_failed_template (reason : String) (stats : Stats) : String :=
  "AI generation failed. Fallback summary based on available data.\n" ++
    "Reason: " ++ reason ++ "\n" ++
    "Active Patients: " ++ toString stats.activePatients ++ "\n" ++
    "Average Progress: " ++ toString stats.averageProgress ++ "%\n" ++
    "Total Workouts: " ++ toString stats.homeWorkouts ++ "\n"

/-- Content selection of `generate_report`, after patient filtering: the
returned pair is the final `content` string and whether
`model.generate_content` was invoked (the call sits inside
`if content is None:` within the try block, so a pre-set insufficient-data
content suppresses it). -/
def generate_report_content (today : Nat) (patientInfo : Option Patient)
    (assessments : List Assessment) (workouts : List Workout)
    (configured : Bool) (gen : GenResult) : String × Bool :=
  let stats := compute_dashboard_stats today assessments workouts
  let hasScores := assessments.any (fun a => decide (0 < compute_assessment_score a))
  let content0 : Option String :=
    if hasScores = false ∧ workouts = [] then some (insufficient_template patientInfo)
    else none
  if configured = false then
    (content0.getD (not_configured_template stats), false)
  else
    match content0 with
    | some c => (c, false)
    | none =>
        match gen with
        | .ok t =>
            (match t with
             | some s => if s = "" then "No content generated." else s
             | none => "No content generated.", true)
        | .fail e => (ai_failed_template e stats, true)

/- ## Document renderer (`_build_pdf_bytes`, lines 466-566) -/

/-- Python `content.split('\n')` (keeps empty pieces; `""` yields `[""]`). -/
def splitLinesAux : List Char → List Char → List (List Char)
  | [], acc => [acc.reverse]
  | '\n' :: rest, acc => acc.reverse :: splitLinesAux rest []
  | c :: rest, acc => splitLinesAux rest (c :: acc)

/-- Split a character list at newlines. -/
def pySplitLines (s : List Char) : List (List Char) := splitLinesAux s []

/-- Python `text.replace('  ', '&nbsp;&nbsp;')`: left-to-right,
non-overlapping. -/
def replaceDbl : List Char → List Char
  | ' ' :: ' ' :: rest => '&' :: 'n' :: 'b' :: 's' :: 'p' :: ';' ::
      '&' :: 'n' :: 'b' :: 's' :: 'p' :: ';' :: replaceDbl rest
  | c :: rest => c :: replaceDbl rest
  | [] => []

/-- Paragraph styles used by the story (`bullet_style` is `Normal` with
`leftIndent 20`, the nested clone has `leftIndent 40`). -/
inductive PStyle
  | bulletStyle
  | nestedStyle
  | normalStyle
deriving DecidableEq, Repr

/-- A flowable appended to the reportlab `story`; spacer heights are in
hundredths of an inch. -/
inductive Block
  | titlePara (text : List Char)
  | spacer (hundredths : Nat)
  | heading1 (text : List Char)
  | heading2 (text : List Char)
  | para (style : PStyle) (text : List Char)
deriving DecidableEq, Repr

/-- Python `line.startswith(p)` on character lists. -/
def lineStartsWith (p : String) (l : List Char) : Bool := p.data.isPrefixOf l

/-- Parser state: the emitted `story`, the pending `current_section`, and
the `in_bullet_list` flag. -/
structure PdfState where
  story : List Block
  sect : List (PStyle × List Char)
  inBulletList : Bool
deriving DecidableEq, Repr

/-- One iteration of the `for line in content.split('\n')` loop.  Note the
source strips the line first, so the two branches keyed on leading spaces
(`'  * '` nested bullets and indented bullet continuations) can never fire;
they are kept here exactly as written.  In the continuation branch CPython
would raise `IndexError` on an empty `current_section`; the branch is
doubly unreachable, and the embedding leaves the state unchanged there. -/
def processLine (st : PdfState) (raw : List Char) : PdfState :=
  let line := pyStripChars raw
  if line = [] then
    { st with story := st.story ++ [.spacer 15], inBulletList := false }
  else if lineStartsWith "# " line then
    { story := st.story ++ st.sect.map (fun p => Block.para p.1 p.2) ++
        [.heading1 (line.drop 2), .spacer 15],
      sect := [], inBulletList := false }
  else if lineStartsWith "## " line then
    { story := st.story ++ st.sect.map (fun p => Block.para p.1 p.2) ++
        [.heading2 (line.drop 3), .spacer 10],
      sect := [], inBulletList := false }
  else if lineStartsWith "* " line || lineStartsWith "- " line then
    { st with
      sect := st.sect ++ [(.bulletStyle, '•' :: ' ' :: replaceDbl (line.drop 2))],
      inBulletList := true }
  else if lineStartsWith "  * " line || lineStartsWith "  - " line then
    { st with
      sect := st.sect ++ [(.nestedStyle, ' ' :: ' ' :: '○' :: ' ' :: replaceDbl (line.drop 4))] }
  else if st.inBulletList && (lineStartsWith "  " line || lineStartsWith "   " line) then
    match st.sect.getLast? with
    | some last =>
        { st with sect := st.sect.dropLast ++
            [(.bulletStyle, last.2 ++ ' ' :: replaceDbl (pyStripChars line))] }
    | none => st
  else
    { st with sect := st.sect ++ [(.normalStyle, replaceDbl line)], inBulletList := false }

/-- The full `story` built by `_build_pdf_bytes` when reportlab is present:
title paragraph, a 0.2-inch spacer, the processed lines, then the final
flush of any pending section. -/
def build_pdf_story (title : List Char) (content : List Char) : List Block :=
  let final := (pySplitLines content).foldl processLine
    ⟨[.titlePara title, .spacer 20], [], false⟩
  final.story ++ final.sect.map (fun p => Block.para p.1 p.2)

/-- UTF-8 encoding of one character. -/
def utf8EncodeChar (c : Char) : List Nat :=
  let n := c.toNat
  if n < 128 then [n]
  else if n < 2048 then [192 + n / 64, 128 + n % 64]
  else if n < 65536 then [224 + n / 4096, 128 + (n / 64) % 64, 128 + n % 64]
  else [240 + n / 262144, 128 + (n / 4096) % 64, 128 + (n / 64) % 64, 128 + n % 64]

/-- Python `s.encode("utf-8")` as a byte list. -/
def utf8Bytes (s : String) : List Nat := s.data.flatMap utf8EncodeChar

/-- The `except` path of `_build_pdf_bytes` when importing reportlab fails:
`(title + "\n\n" + content).encode("utf-8")` (lines 474-476). -/
def build_pdf_bytes_fallback (title : String) (content : String) : List Nat :=
  utf8Bytes (title ++ "\n\n" ++ content)

/- ## Admin clear (`admin_clear`, lines 107-115) -/

/-- The three stored collections. -/
structure Store where
  patients : List Patient
  assessments : List Assessment
  workouts : List Workout
deriving DecidableEq, Repr

/-- `admin_clear`: clear the collections selected by `ty` (the query
parameter defaults to `"all"` when absent; an explicit JSON null arrives as
`none`, which matches no branch) and echo `{"status": "cleared", "type": ty}`
unconditionally. -/
def admin_clear (ty : Option String) (s : Store) : Store × String × Option String :=
  let s1 := if ty = some "assessments" ∨ ty = some "all" then { s with assessments := [] } else s
  let s2 := if ty = some "workouts" ∨ ty = some "all" then { s1 with workouts := [] } else s1
  let s3 := if ty = some "patients" ∨ ty = some "all" then { s2 with patients := [] } else s2
  (s3, "cleared", ty)

/- ## Concrete records used in scenario evaluations -/

/-- Scenario workout with a known category (tsDay 7 is a Sunday). -/
def wFineMotor : Workout := ⟨"W1", "p1", "act", "fine-motor", 30, "daily", none, 7⟩

/-- Scenario workout with an unknown category. -/
def wUnknownCat : Workout := ⟨"W2", "p1", "act", "unknown", 30, "daily", none, 8⟩

/-- Failing assessment for the skill-performance query: a non-numeric
string under the known rating key communication_clarity. -/
def badAssessment : Assessment :=
  ⟨"ASSESS_1", "p1", 123, [("communication_clarity", .vStr "good")]⟩

/-- Failing assessment for the progress-series range claim: a rating value
of 10 (the source does not validate or clamp rating values), score 200. -/
def overAssessment : Assessment := ⟨"A4", "p1", 738000, [("fineMotor_grip", .vInt 10)]⟩

/- ## Helper lemmas about `pyRound` -/

/-- Python round of an exact integer is that integer. -/
theorem pyRound_intCast (n : ℤ) : pyRound (n : ℚ) = n := by
  unfold pyRound
  norm_num

/-- Unfolding equation for the score. -/
theorem compute_assessment_score_eq (a : Assessment) :
    compute_assessment_score a =
      if collectRatings a.data ratingKeys = [] then 0
      else pyRound ((((collectRatings a.data ratingKeys).sum : ℚ) /
        ((collectRatings a.data ratingKeys).length * 5)) * 100) := rfl

/-- Evaluate the score once the collected values and the exact rational
value of the formula are known. -/
theorem score_of_values {a : Assessment} {l : List Int}
    (h : collectRatings a.data ratingKeys = l) (hne : l ≠ []) {n : ℤ}
    (hq : ((l.sum : ℚ) / (l.length * 5)) * 100 = (n : ℚ)) :
    compute_assessment_score a = n := by
  rw [compute_assessment_score_eq, h, if_neg hne, hq, pyRound_intCast]

/-- Python round never rounds below the floor, so a nonnegative argument
rounds to a nonnegative integer. -/
theorem pyRound_nonneg {q : ℚ} (h : 0 ≤ q) : 0 ≤ pyRound q := by
  have hf : 0 ≤ ⌊q⌋ := Int.floor_nonneg.mpr h
  unfold pyRound
  split_ifs <;> omega

/-- Python round of a value at most an integer `b` is at most `b`. -/
theorem pyRound_le_int {q : ℚ} {b : ℤ} (h : q ≤ (b : ℚ)) : pyRound q ≤ b := by
  have hfb : ⌊q⌋ ≤ b := by
    have := Int.floor_le_floor h
    simpa using this
  unfold pyRound
  split_ifs with h1 h2 h3
  · exact hfb
  all_goals {
    have h1q : (1:ℚ)/2 ≤ q - ⌊q⌋ := le_of_not_lt h1
    have hlt : (⌊q⌋ : ℚ) < (b : ℚ) := by linarith
    have : ⌊q⌋ < b := by exact_mod_cast hlt
    omega }

/-- The mean of a nonempty list of integers in `[0, 100]` lies in `[0, 100]`. -/
theorem mean_bounds {l : List Int} (hne : l ≠ [])
    (h : ∀ x ∈ l, 0 ≤ x ∧ x ≤ 100) :
    0 ≤ ((l.sum : ℚ) / l.length) ∧ ((l.sum : ℚ) / l.length) ≤ ((100 : ℤ) : ℚ) := by
  have hlen : 0 < l.length := List.length_pos.mpr hne
  have hlenQ : (0:ℚ) < (l.length : ℚ) := by exact_mod_cast hlen
  have hsum0 : (0:ℤ) ≤ l.sum := List.sum_nonneg (fun x hx => (h x hx).1)
  have hsum100 : l.sum ≤ (l.length : ℤ) * 100 := by
    have := List.sum_le_card_nsmul l 100 (fun x hx => (h x hx).2)
    simpa [nsmul_eq_mul] using this
  constructor
  · exact div_nonneg (by exact_mod_cast hsum0) (le_of_lt hlenQ)
  · rw [div_le_iff₀ hlenQ]
    calc (l.sum : ℚ) ≤ (((l.length : ℤ) * 100 : ℤ) : ℚ) := by exact_mod_cast hsum100
      _ = ((100 : ℤ) : ℚ) * (l.length : ℚ) := by push_cast; ring

/-- Summing a bucket-count function over a duplicate-free key list after
incrementing the bucket of a key in that list adds exactly one. -/
theorem map_update_sum {α : Type} [DecidableEq α] (f : α → Nat) (c : α)
    (l : List α) (hnd : l.Nodup) (hc : c ∈ l) :
    (l.map (Function.update f c (f c + 1))).sum = (l.map f).sum + 1 := by
  revert hnd hc
  induction l with
  | nil => intro _ hc; simp at hc
  | cons a t ih =>
    intro hnd hc
    have hat : a ∉ t := (List.nodup_cons.mp hnd).1
    have hndt : t.Nodup := (List.nodup_cons.mp hnd).2
    rcases List.mem_cons.mp hc with rfl | hct
    · have hmap : t.map (Function.update f c (f c + 1)) = t.map f :=
        List.map_congr_left (fun x hx => by
          refine Function.update_noteq ?_ _ _
          intro hxc
          exact hat (hxc ▸ hx))
      simp only [List.map_cons, List.sum_cons, Function.update_same, hmap]
      omega
    · have hac : a ≠ c := fun hh => hat (hh ▸ hct)
      simp only [List.map_cons, List.sum_cons, Function.update_noteq hac, ih hndt hct]
      omega

/-- Folding the weekly counting step over workouts adds the number of
workouts to the bucket total, whatever the starting counts. -/
theorem weekly_fold_sum (ws : List Workout) :
    ∀ cnt : Nat → Nat,
      ((List.range 7).map (ws.foldl weeklyStep cnt)).sum
        = ((List.range 7).map cnt).sum + ws.length := by
  induction ws with
  | nil => intro cnt; simp
  | cons w t ih =>
    intro cnt
    rw [List.foldl_cons, ih (weeklyStep cnt w)]
    have hmem : pyWeekday w.tsDay ∈ List.range 7 :=
      List.mem_range.mpr (Nat.mod_lt _ (by norm_num))
    unfold weeklyStep
    rw [map_update_sum _ _ _ (List.nodup_range 7) hmem]
    simp only [List.length_cons]
    omega

/-- Folding the distribution counting step adds at most one per workout
(unknown categories are dropped). -/
theorem dist_fold_sum_le (ws : List Workout) :
    ∀ cnt : String → Nat,
      (activity_categories.map (ws.foldl distStep cnt)).sum
        ≤ (activity_categories.map cnt).sum + ws.length := by
  induction ws with
  | nil => intro cnt; simp
  | cons w t ih =>
    intro cnt
    rw [List.foldl_cons]
    refine le_trans (ih (distStep cnt w)) ?_
    have hstep : (activity_categories.map (distStep cnt w)).sum
        ≤ (activity_categories.map cnt).sum + 1 := by
      simp only [distStep]
      split_ifs with hmem
      · rw [map_update_sum _ _ _ (by decide) hmem]
      · omega
    simp only [List.length_cons]
    omega

/-- Patient filtering only removes assessments. -/
theorem filterByPatient_subset (pid : Option String) (l : List Assessment)
    {a : Assessment} (h : a ∈ filterByPatient pid l) : a ∈ l := by
  cases pid with
  | none => exact h
  | some p =>
    simp only [filterByPatient] at h
    split_ifs at h with hp
    · exact h
    · exact (List.mem_filter.mp h).1

/-- The progress series has one bucket per requested day. -/
theorem progressDates_length (today n : Nat) : (progressDates today n).length = n := by
  simp [progressDates]

/-- Closed form of the bucket dates. -/
theorem progressDates_eq (today n : Nat) :
    progressDates today n = (List.range n).map (fun i => today + 1 + i - n) := by
  apply List.ext_getElem
  · simp [progressDates]
  · intro i h1 h2
    simp only [progressDates, List.getElem_reverse, List.getElem_map, List.getElem_range,
      List.length_map, List.length_range] at h1 h2 ⊢
    omega

/-- The bucket dates are strictly increasing (oldest first). -/
theorem progressDates_pairwise (today n : Nat) (h : n ≤ today) :
    List.Pairwise (fun x y => x < y) (progressDates today n) := by
  rw [progressDates_eq today n]
  refine List.Pairwise.map _ ?_ (List.pairwise_lt_range n)
  intro a b hab
  omega

/-- The newest bucket is today. -/
theorem progressDates_getLast (today n : Nat) (hn : 0 < n) :
    (progressDates today n).getLast? = some today := by
  unfold progressDates
  rw [List.getLast?_reverse]
  cases n with
  | zero => omega
  | succ m =>
    rw [List.range_succ_eq_map]
    simp

/-- If every present rating value is 5, the score is 100. -/
theorem score_all_fives {a : Assessment}
    (hne : collectRatings a.data ratingKeys ≠ [])
    (h5 : ∀ v ∈ collectRatings a.data ratingKeys, v = 5) :
    compute_assessment_score a = 100 := by
  have hlen : 0 < (collectRatings a.data ratingKeys).length := List.length_pos.mpr hne
  have hsum : (collectRatings a.data ratingKeys).sum
      = (collectRatings a.data ratingKeys).length • (5:ℤ) :=
    List.sum_eq_card_nsmul _ 5 h5
  apply score_of_values rfl hne
  rw [hsum]
  have hQ : ((collectRatings a.data ratingKeys).length : ℚ) ≠ 0 := by
    exact_mod_cast hlen.ne'
  push_cast [nsmul_eq_mul]
  field_simp

/-- Every value of the progress series is the rounded mean of in-range
scores or 0, hence in `[0,100]` whenever all scores are. -/
theorem chart_progress_bounds (today : Nat) (days : Option Int) (pid : Option String)
    (A : List Assessment)
    (h : ∀ a ∈ A, 0 ≤ compute_assessment_score a ∧ compute_assessment_score a ≤ 100) :
    ∀ v ∈ chart_dashboard_progress today days pid A, 0 ≤ v ∧ v ≤ 100 := by
  intro v hv
  simp only [chart_dashboard_progress, List.mem_map] at hv
  obtain ⟨d, hd, rfl⟩ := hv
  by_cases hne : ((filterByPatient pid A).filter (fun a => a.tsDay = d)).map
      compute_assessment_score = []
  · simp [hne]
  · have hmem : ∀ x ∈ ((filterByPatient pid A).filter (fun a => a.tsDay = d)).map
        compute_assessment_score, 0 ≤ x ∧ x ≤ 100 := by
      intro x hx
      obtain ⟨a, ha, rfl⟩ := List.mem_map.mp hx
      exact h a (filterByPatient_subset pid A (List.mem_filter.mp ha).1)
    have hb := mean_bounds hne hmem
    refine ⟨?_, ?_⟩
    · rw [if_neg hne]
      exact pyRound_nonneg hb.1
    · rw [if_neg hne]
      exact pyRound_le_int hb.2

/- ## Claims -/

/-- C1: the score function collects the integer-convertible values among the
six known rating keys (non-convertible values silently skipped), returns 0
when none are present and `round(sum / (count*5) * 100)` otherwise; the
assessment `data = (fineMotor_grip 5, grossMotor_balance 3)` scores 80 (with
or without an extra non-convertible rating value), and an assessment whose
present rating values are all 5 scores 100. -/
theorem claim_C1 :
    (compute_assessment_score ⟨"A1", "p1", 5,
        [("fineMotor_grip", .vInt 5), ("grossMotor_balance", .vInt 3)]⟩ = 80)
  ∧ (compute_assessment_score ⟨"A2", "p1", 5,
        [("fineMotor_grip", .vInt 5), ("communication_clarity", .vStr "good"),
         ("grossMotor_balance", .vInt 3)]⟩ = 80)
  ∧ (∀ a : Assessment, collectRatings a.data ratingKeys = [] →
        compute_assessment_score a = 0)
  ∧ (∀ a : Assessment, collectRatings a.data ratingKeys ≠ [] →
        (∀ v ∈ collectRatings a.data ratingKeys, v = 5) →
        compute_assessment_score a = 100)
  ∧ (∀ a : Assessment, collectRatings a.data ratingKeys ≠ [] →
        compute_assessment_score a =
          pyRound ((((collectRatings a.data ratingKeys).sum : ℚ) /
            ((collectRatings a.data ratingKeys).length * 5)) * 100)) := by
  refine ⟨?_, ?_, ?_, ?_, ?_⟩
  · exact score_of_values (l := [5, 3]) (by decide) (by simp) (by norm_num)
  · exact score_of_values (l := [5, 3]) (by decide) (by simp) (by norm_num)
  · intro a ha
    rw [compute_assessment_score_eq, if_pos ha]
  · intro a hne h5
    exact score_all_fives hne h5
  · intro a hne
    rw [compute_assessment_score_eq, if_neg hne]

/-- C1 witness: a concrete assessment whose present rating values are all 5
(two of the six keys present) scores 100. -/
theorem claim_C1_witness :
    compute_assessment_score ⟨"A3", "p2", 9,
      [("fineMotor_grip", .vInt 5), ("emotional_quality", .vInt 5)]⟩ = 100 :=
  claim_C1.2.2.2.1 _ (by decide) (by decide)

/-- C7: the activity-distribution counts over the fixed 8-category
vocabulary sum to at most the workout count (unknown categories dropped,
never double-counted), and 4 fine-motor plus 6 unknown workouts yield
Fine Motor = 4 with every other category 0. -/
theorem claim_C7 :
    (∀ ws : List Workout, (compute_activity_distribution ws).sum ≤ ws.length)
  ∧ compute_activity_distribution (List.replicate 4 wFineMotor ++ List.replicate 6 wUnknownCat)
      = [4, 0, 0, 0, 0, 0, 0, 0] := by
  constructor
  · intro ws
    have := dist_fold_sum_le ws (fun _ => 0)
    simpa [compute_activity_distribution] using this
  · decide

/-- C8: the seven weekday bucket counts of the weekly-activity query sum
exactly to the number of workouts passed in. -/
theorem claim_C8 : ∀ ws : List Workout, (compute_weekly_activity ws).sum = ws.length := by
  intro ws
  have := weekly_fold_sum ws (fun _ => 0)
  simpa [compute_weekly_activity] using this

/-- C9: when reportlab is unavailable the renderer degrades to exactly the
UTF-8 bytes of the title, a blank line (two newline bytes), then the
content. -/
theorem claim_C9 : ∀ title content : String,
    build_pdf_bytes_fallback title content
      = utf8Bytes title ++ [10, 10] ++ utf8Bytes content := by
  intro t c
  unfold build_pdf_bytes_fallback utf8Bytes
  have hdata : (t ++ "\n\n" ++ c).data = t.data ++ ('\n' :: '\n' :: []) ++ c.data := by
    simp [String.data_append]
  rw [hdata]
  simp [List.flatMap_append, utf8EncodeChar]

/-- C10: an unrecognized clear-type string leaves all three collections
unchanged while the response still reports status "cleared" echoing the
given type. -/
theorem claim_C10 (ty : Option String) (s : Store)
    (h1 : ty ≠ some "patients") (h2 : ty ≠ some "assessments")
    (h3 : ty ≠ some "workouts") (h4 : ty ≠ some "all") :
    admin_clear ty s = (s, "cleared", ty) := by
  simp [admin_clear, h1, h2, h3, h4]

/-- C10 witness: a concrete store is untouched by a clear request of type
"bogus". -/
theorem claim_C10_witness :
    admin_clear (some "bogus")
        ⟨[⟨"1", "n", none⟩], [⟨"A1", "p1", 3, []⟩], [wFineMotor]⟩
      = (⟨[⟨"1", "n", none⟩], [⟨"A1", "p1", 3, []⟩], [wFineMotor]⟩,
         "cleared", some "bogus") :=
  claim_C10 _ _ (by decide) (by decide) (by decide) (by decide)

/-- C2: evaluation of the renderer's story builder at the claimed round-trip
input (one top heading, one subheading, two bullets, one indented
continuation line).  Because the source strips each line before testing the
branches, the indented continuation "  cont" becomes the plain line "cont"
and is emitted as a separate normal-style paragraph block with the
in-bullet-list state cleared — it is NOT appended to the last bullet item
"• two" as the spec's continuation rule (and the source's own dead
"Continuation of bullet point" branch) intends. -/
theorem claim_C2 :
    build_pdf_story "Report".data "# Title\n## Sub\n* one\n* two\n  cont".data =
      [.titlePara "Report".data, .spacer 20,
       .heading1 "Title".data, .spacer 15,
       .heading2 "Sub".data, .spacer 10,
       .para .bulletStyle "• one".data,
       .para .bulletStyle "• two".data,
       .para .normalStyle "cont".data] := by
  decide

/-- C3: evaluation of the three aggregation queries at an assessment whose
communication_clarity is the non-numeric string "good".  The dashboard
stats and the skills radar silently drop the value (their conversions sit
inside try/except), but the skill-performance report calls `int(...)` with
no handler and raises, so its endpoint fails — contradicting the claim that
none of the three queries can fail. -/
theorem claim_C3 :
    reports_skill_performance none [badAssessment]
        = .error "invalid literal for int() with base 10: good"
  ∧ chart_dashboard_skills none [badAssessment] = [0, 0, 0, 0, 0, 0, 0, 0]
  ∧ compute_dashboard_stats 0 [badAssessment] [] = ⟨1, 0, 0, 0⟩ := by
  refine ⟨rfl, by decide, by decide⟩

/-- Evaluation helper: the one-day progress series over a single assessment
dated today is the rounded score of that assessment. -/
theorem chart_progress_single (today : Nat) (a : Assessment) (ha : a.tsDay = today) :
    chart_dashboard_progress today (some 1) none [a]
      = [pyRound ((compute_assessment_score a : ℚ))] := by
  have h1 : progressN (some 1) = 1 := by decide
  have h2 : progressDates today 1 = [today] := by
    have hr : List.range 1 = [0] := rfl
    simp [progressDates, hr]
  simp [chart_dashboard_progress, h1, h2, filterByPatient, ha]

/-- C4 counterexample: (i) a day-count request of 0 produces a series of
length 7 (because `days or 7` treats 0 as absent), not the claimed
clamp-to-[1,90] value 1; (ii) with a stored rating value of 10 under
fineMotor_grip, the series emits the value 200, outside the claimed
range [0,100]. -/
theorem claim_C4_counterexample :
    ((chart_dashboard_progress 738000 (some 0) none []).length = 7
      ∧ (max 1 (min (0:Int) 90)).toNat = 1)
  ∧ (chart_dashboard_progress 738000 (some 1) none [overAssessment] = [200]
      ∧ ¬ ((200:ℤ) ≤ 100)) := by
  refine ⟨⟨by decide, by decide⟩, ⟨?_, by decide⟩⟩
  have hsc : compute_assessment_score overAssessment = 200 :=
    score_of_values (l := [10]) (by decide) (by simp) (by norm_num)
  rw [chart_progress_single 738000 overAssessment rfl, hsc]
  norm_num
  exact pyRound_intCast 200

/-- C4 (amended): the progress series always has length `progressN days`,
which is `max(1, min(N, 90))` for a nonzero requested N and 7 when N is
absent or 0 (Python `days or 7` treats 0 as falsy); the buckets are
strictly increasing day ordinals ending at today; and every emitted value
lies in [0,100] provided every assessment score does (rating values are
not validated, so scores outside [0,100] propagate to the series). -/
theorem claim_C4 :
    (∀ (today : Nat) (days : Option Int) (pid : Option String) (A : List Assessment),
        (chart_dashboard_progress today days pid A).length = progressN days)
  ∧ (∀ d : Int, d ≠ 0 → progressN (some d) = (max 1 (min d 90)).toNat)
  ∧ progressN none = 7
  ∧ progressN (some 0) = 7
  ∧ (∀ today n : Nat, n ≤ today → List.Pairwise (fun x y => x < y) (progressDates today n))
  ∧ (∀ today n : Nat, 0 < n → (progressDates today n).getLast? = some today)
  ∧ (∀ (today : Nat) (days : Option Int) (pid : Option String) (A : List Assessment),
        (∀ a ∈ A, 0 ≤ compute_assessment_score a ∧ compute_assessment_score a ≤ 100) →
        ∀ v ∈ chart_dashboard_progress today days pid A, 0 ≤ v ∧ v ≤ 100) := by
  refine ⟨?_, ?_, by decide, by decide,
    progressDates_pairwise, progressDates_getLast, chart_progress_bounds⟩
  · intro today days pid A
    simp [chart_dashboard_progress, progressDates]
  · intro d hd
    simp [progressN, hd]

/-- C4 witness: concrete instances of the amended claim — a request of 5
days yields 5 buckets; 7 buckets ending at day 100 are strictly increasing
and end at 100; and a 3-day series over one zero-score assessment stays in
[0,100]. -/
theorem claim_C4_witness :
    progressN (some 5) = 5
  ∧ List.Pairwise (fun x y => x < y) (progressDates 100 7)
  ∧ (progressDates 100 7).getLast? = some 100
  ∧ (∀ v ∈ chart_dashboard_progress 100 (some 3) none [⟨"A5", "p1", 100, []⟩],
        0 ≤ v ∧ v ≤ 100) := by
  refine ⟨?_, ?_, ?_, ?_⟩
  · have h := claim_C4.2.1 5 (by norm_num)
    rw [h]
    decide
  · exact claim_C4.2.2.2.2.1 100 7 (by norm_num)
  · exact claim_C4.2.2.2.2.2.1 100 7 (by norm_num)
  · exact claim_C4.2.2.2.2.2.2 100 (some 3) none _ (by decide)

/-- C5: with zero assessments scoring above 0 and zero workouts, the report
content is exactly the fixed insufficient-data narrative (naming the
patient, or generic) and the external generator is never invoked, whether
or not it is configured. -/
theorem claim_C5 (today : Nat) (patientInfo : Option Patient)
    (assessments : List Assessment) (workouts : List Workout)
    (configured : Bool) (gen : GenResult)
    (hs : ∀ a ∈ assessments, compute_assessment_score a ≤ 0)
    (hw : workouts = []) :
    generate_report_content today patientInfo assessments workouts configured gen
      = (insufficient_template patientInfo, false) := by
  subst hw
  have hany : assessments.any (fun a => decide (0 < compute_assessment_score a)) = false := by
    rw [List.any_eq_false]
    intro a ha
    have := hs a ha
    simp only [decide_eq_true_eq]
    omega
  simp only [generate_report_content, hany]
  norm_num

/-- C5 witness: with one zero-score assessment, no workouts, the generator
configured and failing, the content is still the insufficient-data
narrative and the generator is not invoked. -/
theorem claim_C5_witness :
    generate_report_content 0 none [⟨"A6", "p1", 3, []⟩] [] true (.fail "x")
      = (insufficient_template none, false) :=
  claim_C5 0 none [⟨"A6", "p1", 3, []⟩] [] true (.fail "x") (by decide) rfl

/-- C6: whenever the external call would actually be made (some data exists)
and fails, the request still returns content: the deterministic fallback
embedding the failure reason and the three headline stats; the error is
never propagated (the embedding of the endpoint is total). -/
theorem claim_C6 (today : Nat) (patientInfo : Option Patient)
    (assessments : List Assessment) (workouts : List Workout) (e : String)
    (hdata : (∃ a ∈ assessments, 0 < compute_assessment_score a) ∨ workouts ≠ []) :
    generate_report_content today patientInfo assessments workouts true (.fail e)
      = (ai_failed_template e (compute_dashboard_stats today assessments workouts), true) := by
  have hcond : ¬ ((assessments.any (fun a => decide (0 < compute_assessment_score a))) = false
      ∧ workouts = []) := by
    rintro ⟨h1, h2⟩
    rcases hdata with ⟨a, ha, hsc⟩ | hne
    · rw [List.any_eq_false] at h1
      exact h1 a ha (by simpa using hsc)
    · exact hne h2
  simp only [generate_report_content, if_neg hcond]
  norm_num

/-- C6 witness: with one workout on file and the generator failing with
reason "boom", the returned content is the fallback narrative for that
reason and the computed stats, and the generator was invoked. -/
theorem claim_C6_witness :
    generate_report_content 5 none [] [wFineMotor] true (.fail "boom")
      = (ai_failed_template "boom" (compute_dashboard_stats 5 [] [wFineMotor]), true) :=
  claim_C6 5 none [] [wFineMotor] "boom" (Or.inr (by decide))
